import Mathlib

/-!
Verification development for the app-update change detector
(`main.py` / `release_note.py`): per-storefront version resolvers,
the dotted-version comparison `is_new_ver`, and the run loop that
compares resolved versions against persisted state, dispatches
notifications and rewrites the state file.

Shallow embedding conventions:
* Python strings are Lean `String`s; character-level work happens on
  `String.data` (`List Char`).
* Machine-facing effects (HTTP fetches, XPath node lookup, JSON shape
  extraction) are abstracted into explicit outcome environments; a
  Python exception that propagates is `Except.error ()`.
* `print` diagnostics are collected as `List LogEntry` values.
-/

set_option autoImplicit false

namespace AppUpdate

/-- The default version string `DEFAULT_VERSION = '1.0.0'` from `main.py`. -/
def DEFAULT_VERSION : String := "1.0.0"

/-! ### Python `str.split(".")` and `int()` models -/

/-- Model of Python `s.split(".")` on the character list of `s`:
splitting an empty string yields `[""]`, and separators at the ends or
adjacent to each other yield empty components, exactly as in Python. -/
def splitOnDot : List Char → List (List Char)
  | [] => [[]]
  | c :: rest =>
    if c = '.' then [] :: splitOnDot rest
    else
      match splitOnDot rest with
      | [] => [[c]]
      | g :: gs => (c :: g) :: gs

/-- Characters stripped by Python around an integer literal (ASCII
whitespace; `main.py` only ever passes ASCII version components). -/
def isPySpace (c : Char) : Bool :=
  c = ' ' || c = '\t' || c = '\n' || c = '\x0d' || c = '\x0b' || c = '\x0c'

/-- Digit run with PEP-515 underscores: `digit (digit | _ digit)*`,
accumulating the decimal value.  A trailing or doubled underscore fails. -/
def pyDigitsAux : Nat → List Char → Option Nat
  | acc, [] => some acc
  | acc, '_' :: c :: rest =>
    if c.isDigit then pyDigitsAux (10 * acc + (c.toNat - 48)) rest else none
  | _, ['_'] => none
  | acc, c :: rest =>
    if c.isDigit then pyDigitsAux (10 * acc + (c.toNat - 48)) rest else none

/-- Digits-with-underscores parser: requires at least one digit and a
digit first. -/
def pyDigits : List Char → Option Nat
  | [] => none
  | c :: rest =>
    if c.isDigit then pyDigitsAux (c.toNat - 48) rest else none

/-- Model of Python `int(s)` for ASCII input: optional surrounding
whitespace, optional sign, then decimal digits possibly separated by
single underscores.  (Python additionally accepts some non-ASCII digit
and space characters; no claim or source string involves them.)
`none` models a raised `ValueError`. -/
def pyInt? (s : List Char) : Option Int :=
  let t := ((s.dropWhile isPySpace).reverse.dropWhile isPySpace).reverse
  match t with
  | '-' :: rest => (pyDigits rest).map (fun n => -(n : Int))
  | '+' :: rest => (pyDigits rest).map (fun n => (n : Int))
  | rest => (pyDigits rest).map (fun n => (n : Int))

/-- `[int(num) for num in parts]`: all components must parse, else the
comprehension raises (`none`). -/
def parseAll : List (List Char) → Option (List Int)
  | [] => some []
  | p :: ps =>
    match pyInt? p, parseAll ps with
    | some n, some ns => some (n :: ns)
    | _, _ => none

/-- The `for new_num, current_num in zip(...)` loop body of `is_new_ver`:
at the first differing pair return `new_num > current_num`; falling off
the end of the shorter list returns `False`. -/
def cmpLoop : List Int → List Int → Bool
  | a :: as, b :: bs => if a ≠ b then decide (a > b) else cmpLoop as bs
  | _, _ => false

/-- `is_new_ver(new_ver, current_ver)` from `main.py` lines 29-38:
split both strings on `'.'`, parse every component with `int`, compare
pairwise up to the shorter length; any `ValueError` yields `False`. -/
def is_new_ver (new_ver current_ver : String) : Bool :=
  match parseAll (splitOnDot new_ver.data), parseAll (splitOnDot current_ver.data) with
  | some new_nums, some current_nums => cmpLoop new_nums current_nums
  | _, _ => false

example : is_new_ver "1.2.10" "1.2.9" = true := by decide
example : is_new_ver "1.2" "1.2.0" = false := by decide
example : is_new_ver "2.0" "1.9.9" = true := by decide
example : is_new_ver "abc" "1.0.0" = false := by decide
example : is_new_ver "1.0.0" "abc" = false := by decide
example : is_new_ver "3.0" "3.-1" = true := by decide
example : is_new_ver "1. 2" "1.1" = true := by decide
example : is_new_ver "1.1_0" "1.9" = true := by decide
example : is_new_ver "" "1.0.0" = false := by decide

/-! ### Label stripping (`re.sub(r'バージョン|Version|版本', '', s).strip()`) -/

/-- `listStarts pat cs` is true when `pat` is an initial segment of `cs`. -/
def listStarts : List Char → List Char → Bool
  | [], _ => true
  | _ :: _, [] => false
  | p :: ps, c :: cs => p = c && listStarts ps cs

/-- One left-to-right pass of `re.sub(r'バージョン|Version|版本', '', s)`,
written with a structurally decreasing fuel so that it reduces in the
kernel.  Every step consumes at least one character, so fuel equal to
the length of the input is always sufficient. -/
def stripLabelsGo : Nat → List Char → List Char
  | _, [] => []
  | 0, cs => cs
  | fuel + 1, c :: rest =>
    if listStarts "バージョン".data (c :: rest) then stripLabelsGo fuel (rest.drop 4)
    else if listStarts "Version".data (c :: rest) then stripLabelsGo fuel (rest.drop 6)
    else if listStarts "版本".data (c :: rest) then stripLabelsGo fuel (rest.drop 1)
    else c :: stripLabelsGo fuel rest

/-- Single left-to-right pass of `re.sub(r'バージョン|Version|版本', '', s)`:
at each position the alternatives are tried in order; a match is removed
and scanning resumes after it (the result is not rescanned). -/
def stripLabelsAux (cs : List Char) : List Char :=
  stripLabelsGo cs.length cs

/-- Python `str.strip()` (ASCII whitespace; the stripped strings in this
program are storefront version labels). -/
def pyStripList (cs : List Char) : List Char :=
  ((cs.dropWhile isPySpace).reverse.dropWhile isPySpace).reverse

/-- `re.sub(r'バージョン|Version|版本', '', s).strip()` from `xml_path`. -/
def stripVersionLabel (s : String) : String :=
  ⟨pyStripList (stripLabelsAux s.data)⟩

example : stripVersionLabel "Version 7.1.0" = "7.1.0" := by decide
example : stripVersionLabel " バージョン 2.3.4 " = "2.3.4" := by decide
example : stripVersionLabel "2.1.0" = "2.1.0" := by decide

/-! ### Regex scan `re.findall(r'Version (\d+)\.(\d+)\.(\d+)', text)` -/

/-- Maximal digit run at the head of the list, with the remainder. -/
def takeDigitRun : List Char → List Char × List Char
  | [] => ([], [])
  | c :: rest =>
    if c.isDigit then
      let (d, r) := takeDigitRun rest
      (c :: d, r)
    else ([], c :: rest)

/-- Attempt to match `Version (\d+)\.(\d+)\.(\d+)` at the head of `cs`;
on success return the three captured digit groups joined with `'.'`
(`'.'.join(matches[0])`).  Because `\d` cannot match `'.'`, greedy
maximal digit runs are exact for this pattern. -/
def matchVersionAt (cs : List Char) : Option String :=
  if listStarts "Version ".data cs then
    let r0 := cs.drop 8
    let (d1, r1) := takeDigitRun r0
    if d1 = [] then none
    else
      match r1 with
      | '.' :: r2 =>
        let (d2, r3) := takeDigitRun r2
        if d2 = [] then none
        else
          match r3 with
          | '.' :: r4 =>
            let (d3, _) := takeDigitRun r4
            if d3 = [] then none
            else some ⟨d1 ++ '.' :: d2 ++ '.' :: d3⟩
          | _ => none
      | _ => none
  else none

/-- Leftmost occurrence of the pattern: try each start position from the
left, as Python `re.findall` does for the first element of its result. -/
def findVersionScan : List Char → Option String
  | [] => none
  | c :: rest =>
    match matchVersionAt (c :: rest) with
    | some v => some v
    | none => findVersionScan rest

example : findVersionScan "... Version 3.4.5 ...".data = some "3.4.5" := by decide
example : findVersionScan "no match here".data = none := by decide
example : findVersionScan "Version 03.4.10.7".data = some "03.4.10" := by decide

/-! ### Store model -/

/-- `class StoreType(str, Enum)` from `main.py`. -/
inductive StoreType where
  | PLAY_STORE
  | APP_STORE
  | MAC_STORE
  deriving DecidableEq

/-- The `str` value of each `StoreType` member; these strings are the
JSON keys of the persisted state and the notification `username`. -/
def StoreType.label : StoreType → String
  | .PLAY_STORE => "Google Play Store"
  | .APP_STORE => "iOS App Store"
  | .MAC_STORE => "Mac App Store"

/-- The `msg_prefix` field of the three `Store` configurations. -/
def msgPrefixOf : StoreType → String
  | .PLAY_STORE => "Android app"
  | .APP_STORE => "iOS app"
  | .MAC_STORE => "Mac app"

/-- The `avatar_url` field of the three `Store` configurations. -/
def avatarUrlOf : StoreType → String
  | .PLAY_STORE => "https://i.imgur.com/kN7NO37.png"
  | .APP_STORE => "https://i.imgur.com/fTxPeCW.png"
  | .MAC_STORE => "https://i.imgur.com/XP7rskN.png"

/-- `ALL_STORES = (play_store, ios_store, mac_store)`, by kind. -/
def ALL_STORES : List StoreType :=
  [StoreType.PLAY_STORE, StoreType.APP_STORE, StoreType.MAC_STORE]

/-! ### Resolver environments and diagnostics -/

/-- Outcome of one `httpx.get`: `err` models a raised transport
exception, `ok t` a response whose `.text` is `t` (a non-2xx status
still has a body and raises nothing, since `raise_for_status` is never
called). -/
inductive FetchOutcome where
  | err
  | ok (text : String)
  deriving DecidableEq

/-- The `print` diagnostics the resolvers and the runner can emit. -/
inductive LogEntry where
  | emptyResponse
  | storeVersionNotFound
  | macVersionNotFound
  | websiteNewerThanApi
  deriving DecidableEq

/-- Environment of one `_xml_path` call: the fetch outcome and the text
of the node selected by `site_html.xpath(xpath)[0]` (`none` models any
failure inside the `try`: parse error, `IndexError` on an empty node
list, or a `None` text that makes `re.sub` raise). -/
structure XmlPathEnv where
  fetch : FetchOutcome
  node : Option String
  deriving DecidableEq

/-- `Store._xml_path` (`main.py` lines 63-75): every exception inside
the `try` is caught and degrades to `DEFAULT_VERSION` with a diagnostic;
on success the node text is label-stripped and trimmed. -/
def xml_path (env : XmlPathEnv) : String × List LogEntry :=
  match env.fetch with
  | .err => (DEFAULT_VERSION, [LogEntry.storeVersionNotFound])
  | .ok t =>
    if t = "" then (DEFAULT_VERSION, [LogEntry.emptyResponse])
    else
      match env.node with
      | none => (DEFAULT_VERSION, [LogEntry.storeVersionNotFound])
      | some s => (stripVersionLabel s, [])

/-- `Store.get_play_store_version`: a single `_xml_path` call. -/
def get_play_store_version (env : XmlPathEnv) : String × List LogEntry :=
  xml_path env

/-- Environment of one `get_ios_version` call.  `apiFetch` is whether
the lookup-API `httpx.get` returned (it raises otherwise);
`apiParse = some (version, trackViewUrl)` is the outcome of
`response.json()["results"][0]` plus the two `str(...)` field reads
(`none` models malformed JSON, a missing key or an empty result list —
all of which raise); `site` is the environment of the secondary
`_xml_path` call against the product page. -/
structure IosEnv where
  apiFetch : Bool
  apiParse : Option (String × String)
  site : XmlPathEnv
  deriving DecidableEq

/-- `str(app_detail["trackViewUrl"]).split("?", maxsplit=1)[0]`. -/
def trackSiteUrl (track : String) : String :=
  match track.splitOn "?" with
  | [] => track
  | u :: _ => u

/-- `Store.get_ios_version` (`main.py` lines 80-93).  Nothing here is
wrapped in `try`, so a transport or JSON-shape failure propagates
(`Except.error ()`); otherwise the API version is reconciled against
the website version from `_xml_path`. -/
def get_ios_version (env : IosEnv) : Except Unit (String × List LogEntry) :=
  if !env.apiFetch then Except.error ()
  else
    match env.apiParse with
    | none => Except.error ()
    | some (api_version, _track) =>
      if is_new_ver api_version (xml_path env.site).1 then
        Except.ok (api_version, (xml_path env.site).2)
      else
        if api_version ≠ (xml_path env.site).1 then
          Except.ok ((xml_path env.site).1, (xml_path env.site).2 ++ [LogEntry.websiteNewerThanApi])
        else
          Except.ok ((xml_path env.site).1, (xml_path env.site).2)

/-- `Store.get_mac_version` (`main.py` lines 95-105).  The `httpx.get`
is not guarded, so a transport failure propagates; an empty body or a
missing regex match degrades to `DEFAULT_VERSION` with a diagnostic. -/
def get_mac_version (fetch : FetchOutcome) : Except Unit (String × List LogEntry) :=
  match fetch with
  | .err => Except.error ()
  | .ok t =>
    if t = "" then Except.ok (DEFAULT_VERSION, [LogEntry.emptyResponse])
    else
      match findVersionScan t.data with
      | some v => Except.ok (v, [])
      | none => Except.ok (DEFAULT_VERSION, [LogEntry.macVersionNotFound])

/-! ### Runner (`main`) and entry point -/

/-- The webhook POST payload built in `main` for one updated store. -/
structure Notification where
  content : String
  username : String
  avatar_url : String
  deriving DecidableEq

/-- `old_save_data.get(store.type) or DEFAULT_VERSION`: a missing key or
a falsy stored value (the empty string, for the declared
`Dict[str, str]` content type) both yield the default. -/
def priorOf (old : String → Option String) (st : StoreType) : String :=
  match old (StoreType.label st) with
  | some v => if v = "" then DEFAULT_VERSION else v
  | none => DEFAULT_VERSION

/-- One iteration of the `for store in ALL_STORES` loop in `main`, for a
run in which the store's `parse_version()` returned `resolved st`:
yields the value recorded in `save_data` and the optional webhook
notification. -/
def step (old : String → Option String) (resolved : StoreType → String)
    (st : StoreType) : String × Option Notification :=
  if is_new_ver (resolved st) (priorOf old st) then
    (resolved st,
     some ⟨msgPrefixOf st ++ " update: v" ++ resolved st, StoreType.label st, avatarUrlOf st⟩)
  else
    (priorOf old st, none)

/-- `main` (`main.py` lines 137-164) for a run in which every
`parse_version()` call returned: from the loaded prior state `old` and
the per-store resolved versions, produce the `save_data` mapping that is
dumped over the state file (as an ordered key-value list) and the list
of dispatched notifications, in loop order. -/
def main_run (old : String → Option String) (resolved : StoreType → String) :
    List (String × String) × List Notification :=
  let rs := ALL_STORES.map (fun st => (st, step old resolved st))
  (rs.map (fun p => (StoreType.label p.1, p.2.1)),
   rs.filterMap (fun p => p.2.2))

/-- Lookup in the written state file, viewed as a JSON object. -/
def lookupState (l : List (String × String)) (k : String) : Option String :=
  (l.find? (fun p => p.1 == k)).map (fun p => p.2)

/-- Result of the `__main__` guard: `fatal` models the raised
`ValueError` (nonzero exit, `main` never invoked, so no network or
state-file activity has happened); `run w` models calling `main(w)`. -/
inductive EntryResult where
  | fatal
  | run (webhook : String)
  deriving DecidableEq

/-- The `__main__` block (`main.py` lines 167-173):
`os.environ.get('WEBHOOK_URL')` followed by a truthiness test. -/
def main_entry (env : Option String) : EntryResult :=
  match env with
  | some w => if w = "" then EntryResult.fatal else EntryResult.run w
  | none => EntryResult.fatal

/-! ### Specification-side comparison (transcribed from the claim text,
for the refinement check on `is_new_ver`) -/

/-- From the claim text: walk the component pairs positionally (the zip
stops at the shorter list); true at the first position where the
candidate exceeds the baseline, false at the first position where it is
less, false when every overlapping position is equal. -/
def pairwiseNewer : List (Int × Int) → Bool
  | [] => false
  | (a, b) :: rest => if a > b then true else if a < b then false else pairwiseNewer rest

/-- From the claim text: dot-split the two inputs; if any component of
either fails to parse as an integer the result is false; otherwise the
parsed components are compared pairwise by position. -/
def isNewer_claim (cand base : String) : Bool :=
  if ((splitOnDot cand.data).map pyInt?).any (fun o => o.isNone)
      || ((splitOnDot base.data).map pyInt?).any (fun o => o.isNone) then false
  else
    pairwiseNewer ((((splitOnDot cand.data).map pyInt?).filterMap id).zip
      (((splitOnDot base.data).map pyInt?).filterMap id))

/-! ### Helper lemmas -/

theorem parseAll_char (ps : List (List Char)) :
    parseAll ps =
      if (ps.map pyInt?).any (fun o => o.isNone) then none
      else some ((ps.map pyInt?).filterMap id) := by
  induction ps with
  | nil => simp [parseAll]
  | cons p ps ih =>
    cases h : pyInt? p with
    | none => simp [parseAll, h]
    | some n =>
      by_cases h2 : ((ps.map pyInt?).any fun o => o.isNone) = true
      · simp [parseAll, h, ih, h2]
      · simp [parseAll, h, ih, h2]

theorem cmpLoop_zip (as : List Int) : ∀ bs, cmpLoop as bs = pairwiseNewer (as.zip bs) := by
  induction as with
  | nil => intro bs; cases bs <;> simp [cmpLoop, pairwiseNewer]
  | cons a as ih =>
    intro bs
    cases bs with
    | nil => simp [cmpLoop, pairwiseNewer]
    | cons b bs =>
      by_cases hab : a = b
      · subst hab; simp [cmpLoop, pairwiseNewer, List.zip, ih, lt_irrefl]
      · rcases lt_or_gt_of_ne hab with h | h
        · simp [cmpLoop, pairwiseNewer, List.zip, hab, h, lt_asymm h]
        · simp [cmpLoop, pairwiseNewer, List.zip, hab, h, lt_asymm h]

theorem cmpLoop_self (l : List Int) : cmpLoop l l = false := by
  induction l with
  | nil => rfl
  | cons a as ih => simp [cmpLoop, ih]

theorem is_new_ver_self (a : String) : is_new_ver a a = false := by
  unfold is_new_ver
  cases h : parseAll (splitOnDot a.data) <;> simp [h, cmpLoop_self]

theorem is_new_ver_left_empty (b : String) : is_new_ver "" b = false := by
  have h : parseAll (splitOnDot ("" : String).data) = none := rfl
  unfold is_new_ver
  rw [h]

theorem priorOf_ne_empty (old : String → Option String) (st : StoreType) :
    priorOf old st ≠ "" := by
  unfold priorOf
  cases h : old (StoreType.label st) with
  | none => decide
  | some v =>
    by_cases hv : v = ""
    · simp [hv]; decide
    · simp [hv]

theorem step_cases (old : String → Option String) (resolved : StoreType → String)
    (st : StoreType) :
    (step old resolved st =
        (resolved st, some ⟨msgPrefixOf st ++ " update: v" ++ resolved st,
          StoreType.label st, avatarUrlOf st⟩)
      ∧ is_new_ver (resolved st) (priorOf old st) = true)
    ∨ (step old resolved st = (priorOf old st, none)
      ∧ is_new_ver (resolved st) (priorOf old st) = false) := by
  cases h : is_new_ver (resolved st) (priorOf old st)
  · right; simp [step, h]
  · left; simp [step, h]

theorem step_fst_ne (old : String → Option String) (resolved : StoreType → String)
    (st : StoreType) : (step old resolved st).1 ≠ "" := by
  rcases step_cases old resolved st with ⟨he, hb⟩ | ⟨he, hb⟩
  · rw [he]
    dsimp only
    intro hcon
    rw [hcon, is_new_ver_left_empty] at hb
    exact absurd hb (by decide)
  · rw [he]
    exact priorOf_ne_empty old st

theorem step_not_newer (old : String → Option String) (resolved : StoreType → String)
    (st : StoreType) : is_new_ver (resolved st) (step old resolved st).1 = false := by
  rcases step_cases old resolved st with ⟨he, hb⟩ | ⟨he, hb⟩
  · rw [he]; exact is_new_ver_self _
  · rw [he]; exact hb

theorem main_run_fst (old : String → Option String) (resolved : StoreType → String) :
    (main_run old resolved).1 =
      [("Google Play Store", (step old resolved StoreType.PLAY_STORE).1),
       ("iOS App Store", (step old resolved StoreType.APP_STORE).1),
       ("Mac App Store", (step old resolved StoreType.MAC_STORE).1)] := rfl

theorem lookup_main_run (old : String → Option String) (resolved : StoreType → String)
    (st : StoreType) :
    lookupState (main_run old resolved).1 (StoreType.label st) =
      some (step old resolved st).1 := by
  cases st <;> simp [main_run_fst, lookupState, StoreType.label, List.find?]

theorem main_run_build (old2 : String → Option String) (resolved : StoreType → String)
    (v : StoreType → String) (h : ∀ st, step old2 resolved st = (v st, none)) :
    main_run old2 resolved =
      ([("Google Play Store", v StoreType.PLAY_STORE),
        ("iOS App Store", v StoreType.APP_STORE),
        ("Mac App Store", v StoreType.MAC_STORE)], []) := by
  simp [main_run, ALL_STORES, h, StoreType.label]

/-! ### Claim theorems -/

/-- C2: `is_new_ver` compares dot-split components pairwise by position
up to the shorter length, is true at the first position where the
candidate numerically exceeds the baseline, false at the first position
where it is less, false when all overlapping positions agree (also for
unequal lengths), and false whenever a component of either input fails
to parse as an integer; with the claimed concrete cases and
irreflexivity. -/
theorem is_new_ver_spec :
    (∀ a b : String, is_new_ver a b = isNewer_claim a b)
    ∧ is_new_ver "1.2.10" "1.2.9" = true
    ∧ is_new_ver "1.2" "1.2.0" = false
    ∧ is_new_ver "2.0" "1.9.9" = true
    ∧ is_new_ver "abc" "1.0.0" = false
    ∧ is_new_ver "1.0.0" "abc" = false
    ∧ (∀ a : String, is_new_ver a a = false) := by
  refine ⟨?_, by decide, by decide, by decide, by decide, by decide, is_new_ver_self⟩
  intro a b
  unfold is_new_ver isNewer_claim
  rw [parseAll_char (splitOnDot a.data), parseAll_char (splitOnDot b.data)]
  by_cases hA : (((splitOnDot a.data).map pyInt?).any fun o => o.isNone) = true
  · by_cases hB : (((splitOnDot b.data).map pyInt?).any fun o => o.isNone) = true <;>
      simp [hA, hB]
  · by_cases hB : (((splitOnDot b.data).map pyInt?).any fun o => o.isNone) = true
    · simp [hA, hB]
    · simp [hA, hB, cmpLoop_zip]

/-- C10: `is_new_ver` inherits Python `int` leniency: negative
components, surrounding whitespace and PEP-515 underscores all parse and
are compared numerically instead of hitting the fail-closed branch; in
particular `is_new_ver "3.0" "3.-1" = true`. -/
theorem is_new_ver_lenient_parsing :
    is_new_ver "3.0" "3.-1" = true
    ∧ is_new_ver "-1.5" "-2.0" = true
    ∧ is_new_ver "1. 2" "1.1" = true
    ∧ is_new_ver "1.1_0" "1.9" = true
    ∧ pyInt? "-1".data = some (-1)
    ∧ pyInt? " 2 ".data = some 2
    ∧ pyInt? "1_0".data = some 10 := by decide

/-- C1 counterexample: the App Store resolver is not wrapped in any
`try`, so a transport failure of the primary lookup-API fetch
propagates as an exception instead of degrading to the default version;
the claim that every resolver never raises is false. -/
theorem ios_resolver_raises :
    get_ios_version ⟨false, none, ⟨FetchOutcome.err, none⟩⟩ = Except.error () := rfl

/-- C1 amended: the Play Store resolver never raises — every internal
failure (transport error, empty body, missing node) degrades to the
default version with a logged diagnostic, and otherwise it returns the
stripped node text.  The App Store and Mac Store resolvers propagate a
failure of their primary fetch (and, for the App Store, of the JSON
shape extraction) as an exception, and never raise once those
succeed. -/
theorem resolver_fault_handling :
    (∀ env : XmlPathEnv,
        ((get_play_store_version env).1 = DEFAULT_VERSION
          ∧ (get_play_store_version env).2 ≠ [])
        ∨ (∃ s, env.node = some s
            ∧ get_play_store_version env = (stripVersionLabel s, [])))
    ∧ (∀ p site, get_ios_version ⟨false, p, site⟩ = Except.error ())
    ∧ (∀ site, get_ios_version ⟨true, none, site⟩ = Except.error ())
    ∧ (∀ api track site, ∃ r,
        get_ios_version ⟨true, some (api, track), site⟩ = Except.ok r)
    ∧ get_mac_version FetchOutcome.err = Except.error ()
    ∧ (∀ t, ∃ r, get_mac_version (FetchOutcome.ok t) = Except.ok r) := by
  refine ⟨?_, fun p site => rfl, fun site => rfl, ?_, rfl, ?_⟩
  · rintro ⟨f, n⟩
    cases f with
    | err => exact Or.inl ⟨rfl, by simp [get_play_store_version, xml_path]⟩
    | ok t =>
      by_cases ht : t = ""
      · exact Or.inl (by constructor <;> simp [get_play_store_version, xml_path, ht])
      · cases n with
        | none => exact Or.inl (by constructor <;> simp [get_play_store_version, xml_path, ht])
        | some s => exact Or.inr ⟨s, rfl, by simp [get_play_store_version, xml_path, ht]⟩
  · intro api track site
    by_cases h1 : is_new_ver api (xml_path site).1 = true
    · exact ⟨(api, (xml_path site).2), by simp [get_ios_version, h1]⟩
    · by_cases h2 : api = (xml_path site).1
      · exact ⟨((xml_path site).1, (xml_path site).2), by simp [get_ios_version, h1, h2]⟩
      · exact ⟨((xml_path site).1, (xml_path site).2 ++ [LogEntry.websiteNewerThanApi]),
          by simp [get_ios_version, h1, h2]⟩
  · intro t
    by_cases ht : t = ""
    · exact ⟨(DEFAULT_VERSION, [LogEntry.emptyResponse]), by simp [get_mac_version, ht]⟩
    · cases hm : findVersionScan t.data with
      | some v => exact ⟨(v, []), by simp [get_mac_version, ht, hm]⟩
      | none => exact ⟨(DEFAULT_VERSION, [LogEntry.macVersionNotFound]),
          by simp [get_mac_version, ht, hm]⟩

/-- C3: on a successful API fetch and JSON extraction, the App Store
resolver returns the API version exactly when it is strictly newer than
the website version per `is_new_ver`, and the website version
otherwise; when the two differ without the API being newer it appends
the inconsistency diagnostic, which does not change the value; with the
claimed concrete reconciliations. -/
theorem ios_reconciliation_spec :
    (∀ (api track : String) (site : XmlPathEnv),
        get_ios_version ⟨true, some (api, track), site⟩ =
          if is_new_ver api (xml_path site).1 then
            Except.ok (api, (xml_path site).2)
          else if api = (xml_path site).1 then
            Except.ok ((xml_path site).1, (xml_path site).2)
          else
            Except.ok ((xml_path site).1,
              (xml_path site).2 ++ [LogEntry.websiteNewerThanApi]))
    ∧ get_ios_version ⟨true, some ("2.0.0", "u"), ⟨FetchOutcome.ok "page", some "2.1.0"⟩⟩
        = Except.ok ("2.1.0", [LogEntry.websiteNewerThanApi])
    ∧ get_ios_version ⟨true, some ("2.2.0", "u"), ⟨FetchOutcome.ok "page", some "2.1.0"⟩⟩
        = Except.ok ("2.2.0", []) := by
  refine ⟨?_, rfl, rfl⟩
  intro api track site
  by_cases h1 : is_new_ver api (xml_path site).1 = true
  · simp [get_ios_version, h1]
  · by_cases h2 : api = (xml_path site).1
    · simp [get_ios_version, h1, h2]
    · simp [get_ios_version, h1, h2]

/-- C7: with response text `t`, the Mac Store resolver returns the three
captured digit groups of the leftmost `Version (\d+)\.(\d+)\.(\d+)`
match joined with dots, and the default with a diagnostic when the text
is empty or has no match. -/
theorem mac_extractor_spec :
    (∀ t : String,
        get_mac_version (FetchOutcome.ok t) =
          if t = "" then Except.ok (DEFAULT_VERSION, [LogEntry.emptyResponse])
          else
            match findVersionScan t.data with
            | some v => Except.ok (v, [])
            | none => Except.ok (DEFAULT_VERSION, [LogEntry.macVersionNotFound]))
    ∧ get_mac_version (FetchOutcome.ok "... Version 3.4.5 ...") = Except.ok ("3.4.5", [])
    ∧ get_mac_version (FetchOutcome.ok "Nothing here")
        = Except.ok (DEFAULT_VERSION, [LogEntry.macVersionNotFound])
    ∧ get_mac_version (FetchOutcome.ok "")
        = Except.ok (DEFAULT_VERSION, [LogEntry.emptyResponse]) :=
  ⟨fun _ => rfl, rfl, rfl, rfl⟩

/-- C8 counterexample: `WEBHOOK_URL` present in the environment but
bound to the empty string is falsy, so the guard raises instead of
proceeding; the claim that presence suffices for the run to proceed is
false. -/
theorem entry_empty_webhook_aborts : main_entry (some "") = EntryResult.fatal := rfl

/-- C8 amended: an absent `WEBHOOK_URL` aborts with the fatal
configuration fault before `main` runs (so before any network or state
activity), and a present value proceeds exactly when it is nonempty —
an empty value aborts the same way. -/
theorem entry_guard_spec :
    main_entry none = EntryResult.fatal
    ∧ (∀ w : String,
        main_entry (some w) = if w = "" then EntryResult.fatal else EntryResult.run w) :=
  ⟨rfl, fun _ => rfl⟩

/-- C4: in a completed run, a store whose resolved version is judged
newer than its prior version gets exactly one dispatched notification
and its resolved version recorded; otherwise it gets no notification
and the prior version recorded unchanged. -/
theorem runner_per_store_spec :
    ∀ (old : String → Option String) (resolved : StoreType → String) (st : StoreType),
      lookupState (main_run old resolved).1 (StoreType.label st) =
        some (if is_new_ver (resolved st) (priorOf old st) then resolved st
              else priorOf old st)
      ∧ ((main_run old resolved).2.filter
            (fun n => n.username == StoreType.label st)).length =
          (if is_new_ver (resolved st) (priorOf old st) then 1 else 0) := by
  intro old resolved st
  constructor
  · rw [lookup_main_run]
    rcases step_cases old resolved st with ⟨he, hb⟩ | ⟨he, hb⟩ <;> rw [he] <;> simp [hb]
  · rcases step_cases old resolved StoreType.PLAY_STORE with ⟨hp, hbp⟩ | ⟨hp, hbp⟩ <;>
      rcases step_cases old resolved StoreType.APP_STORE with ⟨ha, hba⟩ | ⟨ha, hba⟩ <;>
      rcases step_cases old resolved StoreType.MAC_STORE with ⟨hm, hbm⟩ | ⟨hm, hbm⟩ <;>
      cases st <;>
      simp [main_run, ALL_STORES, hp, ha, hm, hbp, hba, hbm, StoreType.label,
        List.filter]

/-- C5: the state written at the end of a completed run has exactly the
three configured store labels as keys, in loop order, whatever the
prior file contained and whatever each resolver returned. -/
theorem state_file_keys_spec :
    ∀ (old : String → Option String) (resolved : StoreType → String),
      ((main_run old resolved).1).map Prod.fst =
        ["Google Play Store", "iOS App Store", "Mac App Store"] :=
  fun _ _ => rfl

/-- C6: running twice with every resolver returning the same version in
both runs leaves the persisted state of the second run equal to that of
the first and dispatches no notification in the second run. -/
theorem runner_idempotent :
    ∀ (old : String → Option String) (resolved : StoreType → String),
      main_run (fun k => lookupState (main_run old resolved).1 k) resolved
        = ((main_run old resolved).1, []) := by
  intro old resolved
  have hprior : ∀ st, priorOf (fun k => lookupState (main_run old resolved).1 k) st
      = (step old resolved st).1 := by
    intro st
    unfold priorOf
    simp only [lookup_main_run]
    simp [step_fst_ne old resolved st]
  have hstep : ∀ st, step (fun k => lookupState (main_run old resolved).1 k) resolved st
      = ((step old resolved st).1, none) := by
    intro st
    rcases step_cases (fun k => lookupState (main_run old resolved).1 k) resolved st
      with ⟨he, hb⟩ | ⟨he, hb⟩
    · rw [hprior st, step_not_newer old resolved st] at hb
      exact absurd hb (by decide)
    · rw [he, hprior st]
  rw [main_run_build (fun k => lookupState (main_run old resolved).1 k) resolved
    (fun st => (step old resolved st).1) hstep, main_run_fst]

/-- C9: a persisted entry holding the empty string (the falsy value of
the declared `Dict[str, str]` content type) is treated exactly like an
absent entry: the prior version used for the comparison, and recorded
on no-change, is the default. -/
theorem falsy_prior_default_spec :
    ∀ (old : String → Option String) (resolved : StoreType → String) (st : StoreType),
      old (StoreType.label st) = some "" →
        priorOf old st = DEFAULT_VERSION
        ∧ step old resolved st =
            step (fun k => if k = StoreType.label st then none else old k) resolved st := by
  intro old resolved st h
  have hp : priorOf old st = DEFAULT_VERSION := by simp [priorOf, h]
  have hp2 : priorOf (fun k => if k = StoreType.label st then none else old k) st
      = DEFAULT_VERSION := by simp [priorOf]
  exact ⟨hp, by simp [step, hp, hp2]⟩

/-- C9 witness. -/
theorem falsy_prior_default_spec_witness :
    priorOf (fun _ => some "") StoreType.PLAY_STORE = DEFAULT_VERSION
    ∧ step (fun _ => some "") (fun _ => "2.0.0") StoreType.PLAY_STORE =
        step (fun k => if k = StoreType.label StoreType.PLAY_STORE then none
              else (fun _ => some "") k) (fun _ => "2.0.0") StoreType.PLAY_STORE :=
  falsy_prior_default_spec (fun _ => some "") (fun _ => "2.0.0") StoreType.PLAY_STORE rfl

end AppUpdate
